import Mathlib

/-!
Verification of the AutomationZ Restart Loop Guard decision core
(`AutomationZ_Restart_Loop_Guard/app/main.py`).

The guard's decision engine is embedded shallowly:

* `Config` models the two configuration fields the decision logic reads
  (`max_attempts`, `time_window_seconds`); Python ints become `Int`.
* `Status` mirrors the `Status` dataclass.
* `compute_status` mirrors the pure function `compute_status`.
* `GuardState` models the file-backed state the transaction touches:
  the ledger file contents (`history`), the existence of the lock file
  (`locked`), the incident file (`incident`) and the audit log (`log`).
* `refresh_status` mirrors `App.refresh_status(record)`: the single-process
  run of the record/analyze transaction.  The re-check
  `self.lock_file.exists()` inside the transaction equals the initially
  loaded lock flag, since nothing else touches the file in between.
* `maybe_notify` mirrors `App._maybe_notify`; the outcome of the outbound
  HTTP POST is an environment parameter `nres : Option String`
  (`none` = the POST succeeded, `some e` = `post_discord` raised `e`,
  caught by the `except` branch which appends a log line and returns).
* `unlock` mirrors `App.unlock`, `save_cfg` mirrors `App.save_cfg`.

Fields of the incident record that depend on the ambient machine
(hostname, FQDN, wall-clock ISO rendering) and the free-form
`extra_context` block are not modelled; no claim mentions them.
-/

namespace RestartLoopGuard

/-- Model of Python `str.strip()`: drop whitespace from both ends.
(`String.trim` itself is avoided because its auxiliary functions are
defined by well-founded recursion and do not reduce in the kernel.) -/
def strip (s : String) : String :=
  String.mk (((s.data.dropWhile Char.isWhitespace).reverse.dropWhile
    Char.isWhitespace).reverse)

/-- Accumulate decimal digits after the first one.  Per PEP 515, Python
`int(...)` also accepts a single underscore between two digits
(`int("1_0") = 10`) while rejecting leading, trailing or doubled
underscores; any other character raises `ValueError`. -/
def parseDigitsRest : Nat → List Char → Option Nat
  | acc, [] => some acc
  | acc, c :: cs =>
      if c.isDigit then parseDigitsRest (acc * 10 + (c.toNat - 48)) cs
      else if c = '_' then
        match cs with
        | [] => none
        | d :: cs2 =>
            if d.isDigit then parseDigitsRest (acc * 10 + (d.toNat - 48)) cs2
            else none
      else none

/-- A nonempty digit group: the first character must be a decimal digit
(so `int("_1")` fails), then digits with single interior underscores. -/
def parseDigitGroup : List Char → Option Nat
  | [] => none
  | c :: cs =>
      if c.isDigit then parseDigitsRest (c.toNat - 48) cs else none

/-- Model of Python `int(s)` on an already-stripped string: an optional
sign followed by a nonempty, possibly underscore-grouped, decimal digit
sequence. -/
def parseInt (s : String) : Option Int :=
  match s.data with
  | '-' :: rest => (parseDigitGroup rest).map (fun n => -(n : Int))
  | '+' :: rest => (parseDigitGroup rest).map (fun n => (n : Int))
  | l => (parseDigitGroup l).map (fun n => (n : Int))

/-- Split a character list at every separator occurrence (model of
Python `str.split(sep)`, which never drops empty pieces). -/
def splitChars (sep : Char) : List Char → List (List Char)
  | [] => [[]]
  | c :: cs =>
      let r := splitChars sep cs
      if c = sep then [] :: r
      else
        match r with
        | [] => [[c]]
        | g :: gs => (c :: g) :: gs

/-- Model of Python `s.split(",")`. -/
def splitCommas (s : String) : List String :=
  (splitChars ',' s.data).map String.mk

/-- Decision-relevant configuration fields, read by `compute_status` and
`App.refresh_status` via `int(cfg.get(...))`. -/
structure Config where
  max_attempts : Int
  time_window_seconds : Int
deriving Repr, DecidableEq

/-- Mirror of the Python `Status` dataclass. -/
structure Status where
  state : String
  message : String
  attempt_count : Int
  max_attempts : Int
  window_seconds : Int
  timestamps : List Int
deriving Repr, DecidableEq

/-- Mirror of `compute_status(cfg, history, now, locked)` (main.py lines
143-156): filter the history to the window, then classify LOCKED /
WARNING / OK. -/
def compute_status (cfg : Config) (history : List Int) (now : Int)
    (locked : Bool) : Status :=
  let max_attempts := cfg.max_attempts
  let window := cfg.time_window_seconds
  let windowed := history.filter (fun t => now - t ≤ window)
  let count : Int := windowed.length
  if locked then
    { state := "LOCKED"
      message := "Restart loop locked. Manual unlock required."
      attempt_count := count, max_attempts := max_attempts
      window_seconds := window, timestamps := windowed }
  else if count ≥ max 1 (max_attempts - 1) then
    { state := "WARNING"
      message := "Near threshold: " ++ toString count ++ "/" ++
        toString max_attempts ++ " within " ++ toString window ++ "s."
      attempt_count := count, max_attempts := max_attempts
      window_seconds := window, timestamps := windowed }
  else
    { state := "OK"
      message := "Normal: " ++ toString count ++ "/" ++
        toString max_attempts ++ " within " ++ toString window ++ "s."
      attempt_count := count, max_attempts := max_attempts
      window_seconds := window, timestamps := windowed }

/-- Mirror of the incident dictionary built by `make_incident` (main.py
lines 158-172), keeping the machine-independent fields. -/
structure Incident where
  version : String
  timestamp : Int
  state : String
  message : String
  attempt_count : Int
  max_attempts : Int
  window_seconds : Int
  attempt_timestamps : List Int
deriving Repr, DecidableEq

/-- Mirror of `make_incident(cfg, status, now)`. -/
def make_incident (status : Status) (now : Int) : Incident :=
  { version := "1.1-ui", timestamp := now, state := status.state
    message := status.message, attempt_count := status.attempt_count
    max_attempts := status.max_attempts
    window_seconds := status.window_seconds
    attempt_timestamps := status.timestamps }

/-- Notification block of the configuration (`cfg["notify"]`),
with the decision-relevant fields. -/
structure NotifyCfg where
  enabled : Bool
  discord_webhook_url : String
deriving Repr, DecidableEq

/-- File-backed state shared by the guard's operations: ledger file
contents, lock-file existence, incident file, audit log lines. -/
structure GuardState where
  history : List Int
  locked : Bool
  incident : Option Incident
  log : List String
deriving Repr, DecidableEq

/-- Mirror of `App._maybe_notify(status)` (main.py lines 445-479), as a
function from the notify configuration, the POST outcome and the current
audit log to (whether a POST was attempted, the new audit log).
`if not notify_cfg.get("enabled"): return` is a silent early return;
an empty (after `strip()`) webhook URL logs and returns; otherwise
`post_discord` is attempted and the `try/except` logs success or the
caught exception text `e`. -/
def maybe_notify (ncfg : NotifyCfg) (nres : Option String)
    (log : List String) : Bool × List String :=
  if ncfg.enabled = false then
    (false, log)
  else if strip ncfg.discord_webhook_url = "" then
    (false, log ++ ["Notify enabled but webhook empty."])
  else
    match nres with
    | none => (true, log ++ ["Notification sent (Discord)."])
    | some e => (true, log ++ ["Notification failed: " ++ e])

/-- Mirror of `App.refresh_status(record)` (main.py lines 373-405) at an
injected time `now`, returning the status the call computes (and
displays) together with the new file-backed state. -/
def refresh_status (cfg : Config) (ncfg : NotifyCfg) (nres : Option String)
    (record : Bool) (now : Int) (s : GuardState) : Status × GuardState :=
  let history := s.history
  let locked := s.locked
  let history1 := if record = true ∧ locked = false
    then history ++ [now] else history
  let log1 := if record = true ∧ locked = false
    then s.log ++ ["Recorded start attempt (UI)."] else s.log
  let status := compute_status cfg history1 now locked
  let hist2 := status.timestamps
  if record = true ∧ (status.timestamps.length : Int) ≥ cfg.max_attempts ∧
      locked = false then
    let status2 := compute_status cfg status.timestamps now true
    let log2 := log1 ++ ["LOCKED (threshold reached). " ++
      toString status2.timestamps.length ++ " in window."]
    let log3 := (maybe_notify ncfg nres log2).2
    (status2,
      { history := hist2, locked := true
        incident := some (make_incident status2 now), log := log3 })
  else
    (status,
      { history := hist2, locked := locked
        incident := s.incident, log := log1 })

/-- Result type of `App.unlock`: the caller-facing report distinguishes
removing the lock from having nothing to remove. -/
inductive UnlockResult where
  | Removed
  | NoOp
deriving Repr, DecidableEq

/-- Mirror of `App.unlock` (main.py lines 421-431): a missing lock file
reports a no-op and returns; otherwise the lock file is unlinked, the
removal is logged and `refresh_status(record=False)` runs at time `now`. -/
def unlock (cfg : Config) (ncfg : NotifyCfg) (nres : Option String)
    (now : Int) (s : GuardState) : UnlockResult × GuardState :=
  if s.locked = false then
    (UnlockResult.NoOp, s)
  else
    let s1 : GuardState :=
      { history := s.history, locked := false, incident := s.incident
        log := s.log ++ ["Lock removed (UI)."] }
    let r := refresh_status cfg ncfg nres false now s1
    (UnlockResult.Removed, r.2)

/-- The stored configuration document fields written by `App.save_cfg`. -/
structure CfgStore where
  max_attempts : Int
  time_window_seconds : Int
  backoff_seconds : List Int
  notify_enabled : Bool
  discord_webhook_url : String
deriving Repr, DecidableEq

/-- Mirror of the backoff-field parse in `App.save_cfg`:
`[int(x.strip()) for x in var.split(",") if x.strip() != ""]`; any piece
that fails `int(...)` aborts the whole save. -/
def parseBackoff (sIn : String) : Option (List Int) :=
  ((splitCommas sIn).filter (fun x => strip x ≠ "")).mapM
    (fun x => parseInt (strip x))

/-- Mirror of `App.save_cfg` (main.py lines 351-371): parse the entry
fields; if every parse succeeds the configuration is updated and
persisted, otherwise the exception is caught, an error box shown, and
nothing is changed (all parses happen before any assignment). -/
def save_cfg (varMax varWindow varBackoff : String)
    (varNotifyEnabled : Bool) (varWebhook : String) (cfg : CfgStore) :
    Except String CfgStore :=
  match parseInt (strip varMax), parseInt (strip varWindow),
      parseBackoff varBackoff with
  | some ma, some ws, some bo =>
      Except.ok { cfg with
        max_attempts := ma, time_window_seconds := ws
        backoff_seconds := bo, notify_enabled := varNotifyEnabled
        discord_webhook_url := strip varWebhook }
  | _, _, _ => Except.error "Save failed"

/-- The initial state: empty ledger file, no lock file, no incident,
empty audit log. -/
def s0 : GuardState :=
  { history := [], locked := false, incident := none, log := [] }

/-- A sequence of `recordAttempt` calls at the given times, returning
the status of the last call (`none` when no call was made) and the final
state. -/
def runRecords (cfg : Config) (ncfg : NotifyCfg) (nres : Option String) :
    List Int → GuardState → Option Status × GuardState
  | [], s => (none, s)
  | t :: ts, s =>
    let r := refresh_status cfg ncfg nres true t s
    let rest := runRecords cfg ncfg nres ts r.2
    (rest.1.orElse (fun _ => some r.1), rest.2)

lemma filter_idem (p : Int → Bool) (l : List Int) :
    (l.filter p).filter p = l.filter p := by
  simp [List.filter_filter]

lemma compute_status_timestamps (cfg : Config) (h : List Int) (now : Int)
    (locked : Bool) :
    (compute_status cfg h now locked).timestamps =
      h.filter (fun t => now - t ≤ cfg.time_window_seconds) := by
  simp only [compute_status]
  split <;> [rfl; split <;> rfl]

lemma compute_status_count (cfg : Config) (h : List Int) (now : Int)
    (locked : Bool) :
    (compute_status cfg h now locked).attempt_count =
      ((h.filter (fun t => now - t ≤ cfg.time_window_seconds)).length : Int) := by
  simp only [compute_status]
  split <;> [rfl; split <;> rfl]

lemma compute_status_state_unlocked (cfg : Config) (h : List Int) (now : Int) :
    (compute_status cfg h now false).state =
      if ((h.filter (fun t => now - t ≤ cfg.time_window_seconds)).length : Int)
          ≥ max 1 (cfg.max_attempts - 1) then "WARNING" else "OK" := by
  simp only [compute_status, Bool.false_eq_true, if_false]
  split <;> rfl

/-- C2: the threshold evaluator is a pure classification: with the lock
flag set the state is LOCKED regardless of the count; otherwise the state
is WARNING exactly when the in-window count reaches max(1, max_attempts-1)
and OK below it.  `compute_status` is a pure function of its four
arguments, so it can neither create nor remove the lock marker: no
`GuardState` is read or written by evaluating it. -/
theorem C2_evaluator_classification (cfg : Config) (history : List Int)
    (now : Int) (locked : Bool) :
    (locked = true → (compute_status cfg history now locked).state = "LOCKED") ∧
    (locked = false →
      ((((history.filter (fun t => now - t ≤ cfg.time_window_seconds)).length : Int)
          ≥ max 1 (cfg.max_attempts - 1) →
        (compute_status cfg history now locked).state = "WARNING") ∧
       (((history.filter (fun t => now - t ≤ cfg.time_window_seconds)).length : Int)
          < max 1 (cfg.max_attempts - 1) →
        (compute_status cfg history now locked).state = "OK"))) := by
  refine ⟨fun hl => ?_, fun hl => ⟨fun hc => ?_, fun hc => ?_⟩⟩
  · subst hl; rfl
  · subst hl; rw [compute_status_state_unlocked, if_pos hc]
  · subst hl; rw [compute_status_state_unlocked, if_neg (not_le.mpr hc)]

/-- Witness for C2 at concrete inputs covering all three branches. -/
theorem C2_witness :
    (compute_status ⟨3, 300⟩ [0, 50] 100 true).state = "LOCKED" ∧
    (compute_status ⟨3, 300⟩ [0, 50] 100 false).state = "WARNING" ∧
    (compute_status ⟨3, 300⟩ [0] 100 false).state = "OK" :=
  ⟨(C2_evaluator_classification ⟨3, 300⟩ [0, 50] 100 true).1 rfl,
   ((C2_evaluator_classification ⟨3, 300⟩ [0, 50] 100 false).2 rfl).1 (by decide),
   ((C2_evaluator_classification ⟨3, 300⟩ [0] 100 false).2 rfl).2 (by decide)⟩



lemma refresh_status_history (cfg : Config) (ncfg : NotifyCfg)
    (nres : Option String) (record : Bool) (now : Int) (s : GuardState) :
    (refresh_status cfg ncfg nres record now s).2.history =
      (if record = true ∧ s.locked = false then s.history ++ [now]
       else s.history).filter (fun t => now - t ≤ cfg.time_window_seconds) := by
  simp only [refresh_status]
  split <;> split <;> simp [compute_status_timestamps]

lemma refresh_status_analyze (cfg : Config) (ncfg : NotifyCfg)
    (nres : Option String) (now : Int) (s : GuardState) :
    refresh_status cfg ncfg nres false now s =
      (compute_status cfg s.history now s.locked,
       { history := s.history.filter (fun t => now - t ≤ cfg.time_window_seconds)
         locked := s.locked, incident := s.incident, log := s.log }) := by
  simp [refresh_status, compute_status_timestamps]

lemma compute_status_filter_eq (cfg : Config) (h : List Int) (now : Int)
    (locked : Bool) :
    compute_status cfg (h.filter (fun t => now - t ≤ cfg.time_window_seconds))
        now locked = compute_status cfg h now locked := by
  simp only [compute_status, filter_idem]

/-- C5: pruning is idempotent: the window filter applied to its own
output is the identity, and a repeated analyze call at the same time with
no new attempts returns the identical status and state. -/
theorem C5_prune_idempotent (cfg : Config) (ncfg : NotifyCfg)
    (nres : Option String) (now : Int) (history : List Int) (locked : Bool)
    (s : GuardState) :
    (compute_status cfg (compute_status cfg history now locked).timestamps
        now locked).timestamps = (compute_status cfg history now locked).timestamps ∧
    refresh_status cfg ncfg nres false now
        ((refresh_status cfg ncfg nres false now s).2) =
      refresh_status cfg ncfg nres false now s := by
  constructor
  · simp only [compute_status_timestamps, filter_idem]
  · rw [refresh_status_analyze cfg ncfg nres now s, refresh_status_analyze]
    simp only [filter_idem, compute_status_filter_eq]

/-- C10: in every Status produced by the evaluator, `attempt_count`
equals the length of `timestamps`, and `timestamps` is exactly the
order-preserving in-window subsequence (a filter, hence a sublist) of the
input history; the same holds for the status returned by every analyze
and record call, including the LOCKED case. -/
theorem C10_status_consistency (cfg : Config) (ncfg : NotifyCfg)
    (nres : Option String) (history : List Int) (now : Int)
    (locked record : Bool) (s : GuardState) :
    ((compute_status cfg history now locked).attempt_count
        = (((compute_status cfg history now locked).timestamps).length : Int) ∧
     (compute_status cfg history now locked).timestamps
        = history.filter (fun t => now - t ≤ cfg.time_window_seconds) ∧
     ((compute_status cfg history now locked).timestamps).Sublist history) ∧
    ((refresh_status cfg ncfg nres record now s).1.attempt_count
        = ((((refresh_status cfg ncfg nres record now s).1.timestamps)).length : Int) ∧
     (refresh_status cfg ncfg nres record now s).1.timestamps
        = (if record = true ∧ s.locked = false then s.history ++ [now]
           else s.history).filter (fun t => now - t ≤ cfg.time_window_seconds)) := by
  refine ⟨⟨?_, ?_, ?_⟩, ?_, ?_⟩
  · rw [compute_status_count, compute_status_timestamps]
  · rw [compute_status_timestamps]
  · rw [compute_status_timestamps]
    exact List.filter_sublist _
  · simp only [refresh_status]
    split <;> split <;>
      simp only [compute_status_count, compute_status_timestamps, filter_idem]
  · simp only [refresh_status]
    split <;> split <;>
      simp only [compute_status_timestamps, filter_idem]

/-- C3: a record call made while the lock marker exists appends nothing:
it is literally the same computation as an analyze call at the same time
(same returned status, same final state), and the persisted ledger is the
window-pruned previous ledger. -/
theorem C3_locked_record_is_analyze (cfg : Config) (ncfg : NotifyCfg)
    (nres : Option String) (now : Int) (s : GuardState)
    (hl : s.locked = true) :
    refresh_status cfg ncfg nres true now s =
      refresh_status cfg ncfg nres false now s ∧
    (refresh_status cfg ncfg nres true now s).2.history =
      s.history.filter (fun t => now - t ≤ cfg.time_window_seconds) := by
  constructor
  · simp [refresh_status, hl]
  · rw [refresh_status_history]
    simp [hl]

/-- Witness for C3 on a locked state with a two-entry ledger. -/
theorem C3_witness :
    refresh_status ⟨3, 300⟩ ⟨false, ""⟩ none true 100 ⟨[0, 50], true, none, []⟩ =
      refresh_status ⟨3, 300⟩ ⟨false, ""⟩ none false 100 ⟨[0, 50], true, none, []⟩ ∧
    (refresh_status ⟨3, 300⟩ ⟨false, ""⟩ none true 100
        ⟨[0, 50], true, none, []⟩).2.history = [0, 50] :=
  ⟨(C3_locked_record_is_analyze ⟨3, 300⟩ ⟨false, ""⟩ none 100
      ⟨[0, 50], true, none, []⟩ rfl).1,
   Eq.trans ((C3_locked_record_is_analyze ⟨3, 300⟩ ⟨false, ""⟩ none 100
      ⟨[0, 50], true, none, []⟩ rfl).2) (by decide)⟩

/-- C4: every analyze and record call persists exactly the window filter
of the (possibly just-appended) ledger, in original order; an entry
outside the window is absent from the persisted ledger, and an entry a
state does not contain is never introduced by a later operation at a
later time. -/
theorem C4_prune_and_no_readd (cfg : Config) (ncfg : NotifyCfg)
    (nres : Option String) (record : Bool) (now : Int) (s : GuardState)
    (hW : 0 ≤ cfg.time_window_seconds) :
    (refresh_status cfg ncfg nres record now s).2.history =
      (if record = true ∧ s.locked = false then s.history ++ [now]
       else s.history).filter (fun t => now - t ≤ cfg.time_window_seconds) ∧
    (∀ t ∈ s.history, cfg.time_window_seconds < now - t →
      t ∉ (refresh_status cfg ncfg nres record now s).2.history) ∧
    (∀ (t now2 : Int) (rec2 : Bool) (s2 : GuardState), t ∉ s2.history →
      now ≤ now2 → cfg.time_window_seconds < now - t →
      t ∉ (refresh_status cfg ncfg nres rec2 now2 s2).2.history) := by
  refine ⟨refresh_status_history cfg ncfg nres record now s, ?_, ?_⟩
  · intro t ht hold hmem
    rw [refresh_status_history] at hmem
    have := (List.mem_filter.mp hmem).2
    simp only [decide_eq_true_eq] at this
    omega
  · intro t now2 rec2 s2 hnot hle hold hmem
    rw [refresh_status_history] at hmem
    have hmem2 := (List.mem_filter.mp hmem).1
    have htlt : t < now2 := by omega
    have hm : t ∈ s2.history ++ [now2] ∨ t ∈ s2.history := by
      split at hmem2
      · exact Or.inl hmem2
      · exact Or.inr hmem2
    rcases hm with hm1 | hm1
    · rcases List.mem_append.mp hm1 with hm2 | hm2
      · exact hnot hm2
      · have : t = now2 := List.mem_singleton.mp hm2
        omega
    · exact hnot hm1


lemma compute_status_state_locked (cfg : Config) (h : List Int) (now : Int) :
    (compute_status cfg h now true).state = "LOCKED" := rfl

/-- C6: unlock with no lock marker reports `NoOp` and changes nothing;
with the marker present it reports `Removed`, clears the marker, keeps
only the pruned ledger, and a subsequent analyze applies the unlocked
rules (status WARNING or OK) to that ledger. -/
theorem C6_unlock_noop_or_removed (cfg : Config) (ncfg : NotifyCfg)
    (nres : Option String) (now now2 : Int) (s : GuardState) :
    (s.locked = false → unlock cfg ncfg nres now s = (UnlockResult.NoOp, s)) ∧
    (s.locked = true →
      (unlock cfg ncfg nres now s).1 = UnlockResult.Removed ∧
      (unlock cfg ncfg nres now s).2.locked = false ∧
      (unlock cfg ncfg nres now s).2.history =
        s.history.filter (fun t => now - t ≤ cfg.time_window_seconds) ∧
      (refresh_status cfg ncfg nres false now2 (unlock cfg ncfg nres now s).2).1 =
        compute_status cfg ((unlock cfg ncfg nres now s).2.history) now2 false ∧
      ((refresh_status cfg ncfg nres false now2
          (unlock cfg ncfg nres now s).2).1.state = "WARNING" ∨
       (refresh_status cfg ncfg nres false now2
          (unlock cfg ncfg nres now s).2).1.state = "OK")) := by
  constructor
  · intro h
    simp [unlock, h]
  · intro h
    have hu : unlock cfg ncfg nres now s =
        (UnlockResult.Removed,
         { history := s.history.filter (fun t => now - t ≤ cfg.time_window_seconds)
           locked := false, incident := s.incident
           log := s.log ++ ["Lock removed (UI)."] }) := by
      simp [unlock, h, refresh_status_analyze]
    rw [hu]
    refine ⟨rfl, rfl, rfl, ?_, ?_⟩
    · rw [refresh_status_analyze]
    · rw [refresh_status_analyze]
      simp only [compute_status_state_unlocked]
      split
      · exact Or.inl rfl
      · exact Or.inr rfl

/-- Witness for C6 covering both the absent-lock and present-lock cases. -/
theorem C6_witness :
    unlock ⟨3, 300⟩ ⟨false, ""⟩ none 100 s0 = (UnlockResult.NoOp, s0) ∧
    (unlock ⟨3, 300⟩ ⟨false, ""⟩ none 100 ⟨[0, 50, 100], true, none, []⟩).1 =
      UnlockResult.Removed ∧
    ((refresh_status ⟨3, 300⟩ ⟨false, ""⟩ none false 120
        (unlock ⟨3, 300⟩ ⟨false, ""⟩ none 100
          ⟨[0, 50, 100], true, none, []⟩).2).1.state = "WARNING" ∨
     (refresh_status ⟨3, 300⟩ ⟨false, ""⟩ none false 120
        (unlock ⟨3, 300⟩ ⟨false, ""⟩ none 100
          ⟨[0, 50, 100], true, none, []⟩).2).1.state = "OK") :=
  ⟨(C6_unlock_noop_or_removed ⟨3, 300⟩ ⟨false, ""⟩ none 100 120 s0).1 rfl,
   ((C6_unlock_noop_or_removed ⟨3, 300⟩ ⟨false, ""⟩ none 100 120
      ⟨[0, 50, 100], true, none, []⟩).2 rfl).1,
   ((C6_unlock_noop_or_removed ⟨3, 300⟩ ⟨false, ""⟩ none 100 120
      ⟨[0, 50, 100], true, none, []⟩).2 rfl).2.2.2.2⟩

lemma refresh_status_lock_step (cfg : Config) (ncfg : NotifyCfg)
    (nres : Option String) (now : Int) (s : GuardState)
    (hl : s.locked = false)
    (htrig : (((s.history ++ [now]).filter
        (fun t => now - t ≤ cfg.time_window_seconds)).length : Int) ≥
        cfg.max_attempts) :
    refresh_status cfg ncfg nres true now s =
      (compute_status cfg ((s.history ++ [now]).filter
          (fun t => now - t ≤ cfg.time_window_seconds)) now true,
       { history := (s.history ++ [now]).filter
           (fun t => now - t ≤ cfg.time_window_seconds)
         locked := true
         incident := some (make_incident (compute_status cfg
           ((s.history ++ [now]).filter
             (fun t => now - t ≤ cfg.time_window_seconds)) now true) now)
         log := (maybe_notify ncfg nres
           (s.log ++ ["Recorded start attempt (UI)."] ++
            ["LOCKED (threshold reached). " ++
             toString ((s.history ++ [now]).filter
               (fun t => now - t ≤ cfg.time_window_seconds)).length ++
             " in window."])).2 }) := by
  simp only [refresh_status, hl, eq_self_iff_true, true_and, and_true,
    and_self, if_true, compute_status_timestamps, filter_idem]
  rw [if_pos htrig]

lemma maybe_notify_failure (ncfg : NotifyCfg) (e : String) (log : List String)
    (hen : ncfg.enabled = true) (hurl : ¬ strip ncfg.discord_webhook_url = "") :
    maybe_notify ncfg (some e) log =
      (true, log ++ ["Notification failed: " ++ e]) := by
  simp [maybe_notify, hen, hurl]

/-- C7: when the outbound POST of the lock-transition notification fails,
the failure is only logged: the record call still returns a LOCKED
status, the lock marker is present, the incident record is written, and
status, ledger, lock and incident are identical to the successful-POST
run (only the audit log differs). -/
theorem C7_notify_failure_not_propagated (cfg : Config) (ncfg : NotifyCfg)
    (now : Int) (err : String) (s : GuardState)
    (hl : s.locked = false)
    (htrig : cfg.max_attempts ≤ (((s.history ++ [now]).filter
        (fun t => now - t ≤ cfg.time_window_seconds)).length : Int))
    (hen : ncfg.enabled = true)
    (hurl : ¬ strip ncfg.discord_webhook_url = "") :
    (refresh_status cfg ncfg (some err) true now s).1.state = "LOCKED" ∧
    (refresh_status cfg ncfg (some err) true now s).2.locked = true ∧
    (∃ inc, (refresh_status cfg ncfg (some err) true now s).2.incident = some inc) ∧
    ("Notification failed: " ++ err) ∈
      (refresh_status cfg ncfg (some err) true now s).2.log ∧
    (refresh_status cfg ncfg (some err) true now s).1 =
      (refresh_status cfg ncfg none true now s).1 ∧
    (refresh_status cfg ncfg (some err) true now s).2.history =
      (refresh_status cfg ncfg none true now s).2.history ∧
    (refresh_status cfg ncfg (some err) true now s).2.locked =
      (refresh_status cfg ncfg none true now s).2.locked ∧
    (refresh_status cfg ncfg (some err) true now s).2.incident =
      (refresh_status cfg ncfg none true now s).2.incident := by
  rw [refresh_status_lock_step cfg ncfg (some err) now s hl htrig,
    refresh_status_lock_step cfg ncfg none now s hl htrig]
  refine ⟨compute_status_state_locked _ _ _, rfl, ⟨_, rfl⟩, ?_, rfl, rfl, rfl, rfl⟩
  rw [maybe_notify_failure ncfg err _ hen hurl]
  simp

/-- Witness for C7: a failing POST on the lock-transition record call. -/
theorem C7_witness :
    (refresh_status ⟨1, 300⟩ ⟨true, "https://example.invalid/hook"⟩
        (some "URLError") true 0 s0).1.state = "LOCKED" ∧
    (refresh_status ⟨1, 300⟩ ⟨true, "https://example.invalid/hook"⟩
        (some "URLError") true 0 s0).2.locked = true ∧
    ("Notification failed: " ++ "URLError") ∈
      (refresh_status ⟨1, 300⟩ ⟨true, "https://example.invalid/hook"⟩
        (some "URLError") true 0 s0).2.log :=
  have h := C7_notify_failure_not_propagated ⟨1, 300⟩
    ⟨true, "https://example.invalid/hook"⟩ 0 "URLError" s0 rfl
    (by decide) rfl (by decide)
  ⟨h.1, h.2.1, h.2.2.2.1⟩

/-- C8 counterexample: with notifications disabled the dispatcher skips
silently, writing nothing to the audit log, contrary to the claim that
both skip cases are logged. -/
theorem C8_counterexample :
    (maybe_notify ⟨false, "https://example.invalid/hook"⟩ none ["line"]).2 =
      ["line"] ∧
    (maybe_notify ⟨false, "https://example.invalid/hook"⟩ none ["line"]).1 =
      false := by
  constructor <;> rfl

/-- C8 (amended): the dispatcher is a no-op (no POST attempted) both when
disabled and when the webhook URL is blank after stripping; the blank-URL
skip is written to the audit log, while the disabled skip writes nothing;
neither case escalates to the caller. -/
theorem C8_skip_cases (ncfg : NotifyCfg) (nres : Option String)
    (log : List String) :
    (ncfg.enabled = false → maybe_notify ncfg nres log = (false, log)) ∧
    (ncfg.enabled = true → strip ncfg.discord_webhook_url = "" →
      maybe_notify ncfg nres log =
        (false, log ++ ["Notify enabled but webhook empty."])) := by
  constructor
  · intro h
    simp [maybe_notify, h]
  · intro h1 h2
    simp [maybe_notify, h1, h2]

/-- Witness for C8 covering the disabled and blank-URL skip cases. -/
theorem C8_witness :
    maybe_notify ⟨false, "https://example.invalid/hook"⟩ none [] = (false, []) ∧
    maybe_notify ⟨true, "  "⟩ none [] =
      (false, [] ++ ["Notify enabled but webhook empty."]) :=
  ⟨(C8_skip_cases ⟨false, "https://example.invalid/hook"⟩ none []).1 rfl,
   (C8_skip_cases ⟨true, "  "⟩ none []).2 rfl (by decide)⟩

/-- C9 counterexample: saving max_attempts = 0 (an integer below 1) is
accepted and persisted, contrary to the claim that such a save is
rejected. -/
theorem C9_counterexample :
    save_cfg "0" "300" "" false "" ⟨3, 300, [0, 60, 180, 300], false, ""⟩ =
      Except.ok ⟨0, 300, [], false, ""⟩ ∧ ¬ ((0 : Int) ≥ 1) :=
  ⟨rfl, by decide⟩

/-- C9 (amended): the save operation performs no max_attempts lower-bound
check: whenever every field parses, the parsed integers (including a
max_attempts < 1) are persisted verbatim; a save whose max_attempts does
not parse as an integer — in Python `int()`'s sense, which includes
underscore-grouped numerals like "1_0" — is rejected and leaves the
stored configuration unchanged. -/
theorem C9_save_validation (vm vw vb : String) (nen : Bool) (wh : String)
    (store : CfgStore) :
    (∀ ma ws bo, parseInt (strip vm) = some ma → parseInt (strip vw) = some ws →
      parseBackoff vb = some bo →
      save_cfg vm vw vb nen wh store = Except.ok { store with
        max_attempts := ma, time_window_seconds := ws, backoff_seconds := bo
        notify_enabled := nen, discord_webhook_url := strip wh }) ∧
    (parseInt (strip vm) = none →
      save_cfg vm vw vb nen wh store = Except.error "Save failed") := by
  constructor
  · intro ma ws bo h1 h2 h3
    simp [save_cfg, h1, h2, h3]
  · intro h1
    cases h2 : parseInt (strip vw) <;> cases h3 : parseBackoff vb <;>
      simp [save_cfg, h1, h2, h3]

/-- Witness for C9 covering an accepted parse, an accepted
underscore-grouped parse (Python `int("1_0") = 10`), and a rejected
parse. -/
theorem C9_witness :
    save_cfg "5" "600" "0,60" true " https://example.invalid/hook "
        ⟨3, 300, [0, 60, 180, 300], false, ""⟩ =
      Except.ok ⟨5, 600, [0, 60], true, "https://example.invalid/hook"⟩ ∧
    save_cfg "1_0" "300" "" false "" ⟨3, 300, [], false, ""⟩ =
      Except.ok ⟨10, 300, [], false, ""⟩ ∧
    save_cfg "abc" "300" "" false "" ⟨3, 300, [], false, ""⟩ =
      Except.error "Save failed" :=
  ⟨Eq.trans ((C9_save_validation "5" "600" "0,60" true
      " https://example.invalid/hook " ⟨3, 300, [0, 60, 180, 300], false, ""⟩).1
      5 600 [0, 60] rfl rfl rfl) rfl,
   Eq.trans ((C9_save_validation "1_0" "300" "" false ""
      ⟨3, 300, [], false, ""⟩).1 10 300 [] rfl rfl rfl) rfl,
   (C9_save_validation "abc" "300" "" false "" ⟨3, 300, [], false, ""⟩).2 rfl⟩


/-- Witness for C4: the t=0 entry pruned at now=400 with window=300 is
gone and is not re-introduced by a later record call at now=500. -/
theorem C4_witness :
    (0 : Int) ∉ (refresh_status ⟨3, 300⟩ ⟨false, ""⟩ none false 400
      ⟨[0], false, none, []⟩).2.history ∧
    (0 : Int) ∉ (refresh_status ⟨3, 300⟩ ⟨false, ""⟩ none true 500
      ⟨[400], false, none, []⟩).2.history :=
  have h := C4_prune_and_no_readd ⟨3, 300⟩ ⟨false, ""⟩ none false 400
    ⟨[0], false, none, []⟩ (by decide)
  ⟨h.2.1 0 (by decide) (by decide),
   h.2.2 0 500 true ⟨[400], false, none, []⟩ (by decide) (by decide) (by decide)⟩

lemma runRecords_cons (cfg : Config) (ncfg : NotifyCfg) (nres : Option String)
    (t : Int) (ts : List Int) (s : GuardState) :
    runRecords cfg ncfg nres (t :: ts) s =
      ((runRecords cfg ncfg nres ts
          (refresh_status cfg ncfg nres true t s).2).1.orElse
        (fun _ => some (refresh_status cfg ncfg nres true t s).1),
       (runRecords cfg ncfg nres ts
          (refresh_status cfg ncfg nres true t s).2).2) := rfl

lemma refresh_status_record_below (cfg : Config) (ncfg : NotifyCfg)
    (nres : Option String) (now : Int) (s : GuardState)
    (hl : s.locked = false)
    (hkeep : ∀ t ∈ s.history ++ [now], now - t ≤ cfg.time_window_seconds)
    (hlt : (s.history.length : Int) + 1 < cfg.max_attempts) :
    refresh_status cfg ncfg nres true now s =
      (compute_status cfg (s.history ++ [now]) now false,
       { history := s.history ++ [now], locked := false, incident := s.incident
         log := s.log ++ ["Recorded start attempt (UI)."] }) := by
  have hfull : (s.history ++ [now]).filter
      (fun t => now - t ≤ cfg.time_window_seconds) = s.history ++ [now] :=
    List.filter_eq_self.mpr (fun a ha => decide_eq_true (hkeep a ha))
  have hnotrig : ¬ ((((s.history ++ [now]).filter
      (fun t => now - t ≤ cfg.time_window_seconds)).length : Int) ≥
      cfg.max_attempts) := by
    rw [hfull]
    simp only [List.length_append, List.length_cons, List.length_nil]
    push_cast
    omega
  simp only [refresh_status, hl, eq_self_iff_true, true_and, and_true,
    and_self, if_true, compute_status_timestamps]
  rw [if_neg hnotrig, hfull]

lemma refresh_status_record_lock (cfg : Config) (ncfg : NotifyCfg)
    (nres : Option String) (now : Int) (s : GuardState)
    (hl : s.locked = false)
    (hkeep : ∀ t ∈ s.history ++ [now], now - t ≤ cfg.time_window_seconds)
    (hge : (s.history.length : Int) + 1 ≥ cfg.max_attempts) :
    refresh_status cfg ncfg nres true now s =
      (compute_status cfg (s.history ++ [now]) now true,
       { history := s.history ++ [now], locked := true
         incident := some (make_incident
           (compute_status cfg (s.history ++ [now]) now true) now)
         log := (maybe_notify ncfg nres
           (s.log ++ ["Recorded start attempt (UI)."] ++
            ["LOCKED (threshold reached). " ++
             toString (s.history ++ [now]).length ++
             " in window."])).2 }) := by
  have hfull : (s.history ++ [now]).filter
      (fun t => now - t ≤ cfg.time_window_seconds) = s.history ++ [now] :=
    List.filter_eq_self.mpr (fun a ha => decide_eq_true (hkeep a ha))
  have htrig : ((((s.history ++ [now]).filter
      (fun t => now - t ≤ cfg.time_window_seconds)).length : Int) ≥
      cfg.max_attempts) := by
    rw [hfull]
    simp only [List.length_append, List.length_cons, List.length_nil]
    push_cast
    omega
  rw [refresh_status_lock_step cfg ncfg nres now s hl htrig, hfull]

lemma runRecords_below (cfg : Config) (ncfg : NotifyCfg) (nres : Option String)
    (ts : List Int) :
    ∀ s : GuardState, s.locked = false →
      (∀ t ∈ s.history, ∀ u ∈ ts, u - t ≤ cfg.time_window_seconds) →
      (∀ t ∈ ts, ∀ u ∈ ts, u - t ≤ cfg.time_window_seconds) →
      ((s.history.length : Int) + ts.length < cfg.max_attempts) →
      (runRecords cfg ncfg nres ts s).2.history = s.history ++ ts ∧
      (runRecords cfg ncfg nres ts s).2.locked = false ∧
      (runRecords cfg ncfg nres ts s).2.incident = s.incident ∧
      (ts ≠ [] → ∃ u ∈ ts, (runRecords cfg ncfg nres ts s).1 =
        some (compute_status cfg (s.history ++ ts) u false)) := by
  induction ts with
  | nil =>
      intro s hl hprev hpair hcnt
      refine ⟨by simp [runRecords], by simp [runRecords, hl],
        by simp [runRecords], fun hne => absurd rfl hne⟩
  | cons u ts ih =>
      intro s hl hprev hpair hcnt
      have hu : u ∈ u :: ts := List.mem_cons_self u ts
      have hkeep : ∀ t ∈ s.history ++ [u], u - t ≤ cfg.time_window_seconds := by
        intro t ht
        rcases List.mem_append.mp ht with h | h
        · exact hprev t h u hu
        · rw [List.mem_singleton.mp h]
          have := hpair u hu u hu
          omega
      have hlt : (s.history.length : Int) + 1 < cfg.max_attempts := by
        simp only [List.length_cons] at hcnt
        push_cast at hcnt
        omega
      have hstep := refresh_status_record_below cfg ncfg nres u s hl hkeep hlt
      have h1 : (refresh_status cfg ncfg nres true u s).1 =
          compute_status cfg (s.history ++ [u]) u false := by rw [hstep]
      have h2 : (refresh_status cfg ncfg nres true u s).2 =
          { history := s.history ++ [u], locked := false, incident := s.incident
            log := s.log ++ ["Recorded start attempt (UI)."] } := by rw [hstep]
      rw [runRecords_cons, h1, h2]
      obtain ⟨ih1, ih2, ih3, ih4⟩ := ih
        { history := s.history ++ [u], locked := false, incident := s.incident
          log := s.log ++ ["Recorded start attempt (UI)."] }
        rfl
        (by intro t ht v hv
            rcases List.mem_append.mp ht with h | h
            · exact hprev t h v (List.mem_cons_of_mem u hv)
            · rw [List.mem_singleton.mp h]
              exact hpair u hu v (List.mem_cons_of_mem u hv))
        (fun t ht v hv =>
          hpair t (List.mem_cons_of_mem u ht) v (List.mem_cons_of_mem u hv))
        (by simp only [List.length_append, List.length_cons, List.length_nil]
            simp only [List.length_cons] at hcnt
            push_cast at hcnt ⊢
            omega)
      refine ⟨?_, ih2, ih3, ?_⟩
      · rw [ih1]
        simp
      · intro _
        cases ts with
        | nil =>
            refine ⟨u, hu, ?_⟩
            simp only [runRecords]
            rfl
        | cons v ts2 =>
            obtain ⟨w, hw, heq⟩ := ih4 (by simp)
            refine ⟨w, List.mem_cons_of_mem u hw, ?_⟩
            rw [heq]
            simp only [Option.orElse]
            simp [List.append_assoc]

lemma runRecords_lock (cfg : Config) (ncfg : NotifyCfg) (nres : Option String)
    (ts : List Int) :
    ∀ s : GuardState, s.locked = false →
      (∀ t ∈ s.history, ∀ u ∈ ts, u - t ≤ cfg.time_window_seconds) →
      (∀ t ∈ ts, ∀ u ∈ ts, u - t ≤ cfg.time_window_seconds) →
      ((s.history.length : Int) + ts.length = cfg.max_attempts) →
      ts ≠ [] →
      (runRecords cfg ncfg nres ts s).2.locked = true ∧
      (runRecords cfg ncfg nres ts s).2.history = s.history ++ ts ∧
      (∃ st, (runRecords cfg ncfg nres ts s).1 = some st ∧
        st.state = "LOCKED") := by
  induction ts with
  | nil => intro s _ _ _ _ hne; exact absurd rfl hne
  | cons u ts ih =>
      intro s hl hprev hpair hcnt _
      have hu : u ∈ u :: ts := List.mem_cons_self u ts
      have hkeep : ∀ t ∈ s.history ++ [u], u - t ≤ cfg.time_window_seconds := by
        intro t ht
        rcases List.mem_append.mp ht with h | h
        · exact hprev t h u hu
        · rw [List.mem_singleton.mp h]
          have := hpair u hu u hu
          omega
      cases ts with
      | nil =>
          have hge : (s.history.length : Int) + 1 ≥ cfg.max_attempts := by
            simp only [List.length_cons, List.length_nil] at hcnt
            push_cast at hcnt
            omega
          have hstep := refresh_status_record_lock cfg ncfg nres u s hl hkeep hge
          have h1 : (refresh_status cfg ncfg nres true u s).1 =
              compute_status cfg (s.history ++ [u]) u true := by rw [hstep]
          have h2l : (refresh_status cfg ncfg nres true u s).2.locked = true := by
            rw [hstep]
          have h2h : (refresh_status cfg ncfg nres true u s).2.history =
              s.history ++ [u] := by rw [hstep]
          rw [runRecords_cons]
          refine ⟨?_, ?_, ?_⟩
          · simp only [runRecords]
            exact h2l
          · simp only [runRecords]
            exact h2h
          · refine ⟨compute_status cfg (s.history ++ [u]) u true, ?_,
              compute_status_state_locked cfg (s.history ++ [u]) u⟩
            simp only [runRecords, Option.orElse]
            rw [h1]
      | cons v ts2 =>
          have hlt : (s.history.length : Int) + 1 < cfg.max_attempts := by
            simp only [List.length_cons] at hcnt
            push_cast at hcnt
            omega
          have hstep := refresh_status_record_below cfg ncfg nres u s hl hkeep hlt
          have h1 : (refresh_status cfg ncfg nres true u s).1 =
              compute_status cfg (s.history ++ [u]) u false := by rw [hstep]
          have h2 : (refresh_status cfg ncfg nres true u s).2 =
              { history := s.history ++ [u], locked := false
                incident := s.incident
                log := s.log ++ ["Recorded start attempt (UI)."] } := by
            rw [hstep]
          rw [runRecords_cons, h1, h2]
          obtain ⟨ih1, ih2, ih3⟩ := ih
            { history := s.history ++ [u], locked := false
              incident := s.incident
              log := s.log ++ ["Recorded start attempt (UI)."] }
            rfl
            (by intro t ht w hw
                rcases List.mem_append.mp ht with h | h
                · exact hprev t h w (List.mem_cons_of_mem u hw)
                · rw [List.mem_singleton.mp h]
                  exact hpair u hu w (List.mem_cons_of_mem u hw))
            (fun t ht w hw =>
              hpair t (List.mem_cons_of_mem u ht) w (List.mem_cons_of_mem u hw))
            (by simp only [List.length_append, List.length_cons,
                  List.length_nil]
                simp only [List.length_cons] at hcnt
                push_cast at hcnt ⊢
                omega)
            (by simp)
          refine ⟨ih1, ?_, ?_⟩
          · rw [ih2]
            simp
          · obtain ⟨st, hst, hstate⟩ := ih3
            refine ⟨st, ?_, hstate⟩
            rw [hst]
            simp only [Option.orElse]

/-- C1: starting unlocked with an empty ledger, M record calls whose
timestamps all lie within W seconds of one another drive the guard to
LOCKED with the lock marker present; fewer than M such calls leave the
lock marker absent and classify OK or WARNING by the max(1, M-1)
boundary. -/
theorem C1_threshold_lock_and_boundary (m : Nat) (W : Int) (ncfg : NotifyCfg)
    (nres : Option String) (hm : 1 ≤ m) (hW1 : 1 ≤ W) (times : List Int)
    (hwin : ∀ t ∈ times, ∀ u ∈ times, u - t ≤ W) :
    (times.length = m →
      (runRecords ⟨(m : Int), W⟩ ncfg nres times s0).2.locked = true ∧
      ∃ st, (runRecords ⟨(m : Int), W⟩ ncfg nres times s0).1 = some st ∧
        st.state = "LOCKED") ∧
    (times.length < m →
      (runRecords ⟨(m : Int), W⟩ ncfg nres times s0).2.locked = false ∧
      (times ≠ [] →
        ∃ st, (runRecords ⟨(m : Int), W⟩ ncfg nres times s0).1 = some st ∧
          st.state = (if ((times.length : Int)) ≥ max 1 ((m : Int) - 1)
                      then "WARNING" else "OK"))) := by
  constructor
  · intro hlen
    have hne : times ≠ [] := by
      intro h
      rw [h] at hlen
      simp at hlen
      omega
    have hres := runRecords_lock ⟨(m : Int), W⟩ ncfg nres times s0 rfl
      (by intro t ht; simp [s0] at ht)
      hwin
      (by simp [s0, hlen])
      hne
    exact ⟨hres.1, hres.2.2⟩
  · intro hlen
    have hres := runRecords_below ⟨(m : Int), W⟩ ncfg nres times s0 rfl
      (by intro t ht; simp [s0] at ht)
      hwin
      (by simp only [s0, List.length_nil]
          push_cast
          omega)
    refine ⟨hres.2.1, fun hne => ?_⟩
    obtain ⟨u, hu, heq⟩ := hres.2.2.2 hne
    have hfull : times.filter
        (fun t => u - t ≤ (⟨(m : Int), W⟩ : Config).time_window_seconds) =
        times :=
      List.filter_eq_self.mpr (fun a ha => decide_eq_true (hwin a ha u hu))
    refine ⟨compute_status ⟨(m : Int), W⟩ (s0.history ++ times) u false,
      heq, ?_⟩
    rw [show s0.history ++ times = times from rfl,
      compute_status_state_unlocked, hfull]

/-- Witness for C1: the concrete max_attempts=3, window=300 scenario with
attempts at t=0,50,100 locks on the third call, while two calls leave the
guard unlocked. -/
theorem C1_witness :
    (runRecords ⟨3, 300⟩ ⟨false, ""⟩ none [0, 50, 100] s0).2.locked = true ∧
    (runRecords ⟨3, 300⟩ ⟨false, ""⟩ none [0, 50] s0).2.locked = false := by
  have h1 := C1_threshold_lock_and_boundary 3 300 ⟨false, ""⟩ none
    (by omega) (by omega) [0, 50, 100] (by decide)
  have h2 := C1_threshold_lock_and_boundary 3 300 ⟨false, ""⟩ none
    (by omega) (by omega) [0, 50] (by decide)
  exact ⟨(h1.1 rfl).1, (h2.2 (by decide)).1⟩

end RestartLoopGuard
